import Mathlib

/-!
Shallow embedding of the Honeywell Galaxy 7 keypad driver
(`src/components/honeywell_galaxy7_keypad/honeywell_galaxy7_keypad.cpp` and its
header).  Machine integers (`uint8_t`, `uint32_t`) are modelled as `Nat` with
explicit reductions modulo `2 ^ 8` / `2 ^ 32` where the C++ arithmetic can
overflow.  Byte vectors are `List Nat`, strings are Lean `String`.  The
driver's side effects are made explicit: transmitted payloads, invocations of
`handle_keypress_`, and publications to the RX text sensor are returned as
lists alongside the successor state.  Every call to `millis()` within one
handler is modelled by the single `now` parameter of that handler.
-/

namespace HoneywellGalaxy7

/-- Protocol constants from the top of the `.cpp` file. -/
def KEYPAD_ADDR : Nat := 0x11

def INIT_POLL_SECOND_MS : Nat := 5000

def INIT_POLL_INTERVAL_MS : Nat := 5000

def SCREEN_PUSH_INTERVAL_MS : Nat := 25000

def ACTIVITY_POLL_INTERVAL_MS : Nat := 150

def REPLY_WAIT_MS : Nat := 100

def KEY_DEDUPE_WINDOW_MS : Nat := 100

def PANEL_OFFLINE_TIMEOUT_MS : Nat := 300

/-- `uint32_t` wraparound subtraction `a - b`, as C++ computes `now - then_`.
For `a b < 2 ^ 32` this equals the machine result exactly. -/
def u32sub (a b : Nat) : Nat := (2 ^ 32 + a - b) % 2 ^ 32

/-- `galaxy_checksum`: a `uint32_t` accumulator seeded with `0xAA`, each byte
added (wrapping at `2 ^ 32`), then the four bytes of the accumulator summed;
the return type `uint8_t` truncates the sum modulo 256. -/
def galaxy_checksum (data : List Nat) : Nat :=
  let temp := data.foldl (fun acc b => (acc + b % 256) % 2 ^ 32) 0xAA
  (((temp >>> 24) &&& 0xFF) + ((temp >>> 16) &&& 0xFF) +
    ((temp >>> 8) &&& 0xFF) + (temp &&& 0xFF)) % 256

/-- The `LastCmd` enum from the header. -/
inductive LastCmd
  | CMD_NONE
  | CMD_POLL_00
  | CMD_ACTIVITY_19
  | CMD_SCREEN_07
  | CMD_BEEP_0C
  | CMD_BACKLIGHT_0D
deriving DecidableEq, Repr

open LastCmd

/-- `decode_key_and_tamper_(code)`: sentinel `0x7F` is tamper-only, otherwise
bit 6 is the tamper flag and the low nibble selects the key label. -/
def decode_key_and_tamper_ (code : Nat) : String × Bool :=
  if code = 0x7F then ("", true)
  else
    let tamper := code &&& 0x40 ≠ 0
    let key_code := code &&& 0x0F
    let label :=
      if key_code = 0x00 then "0"
      else if key_code = 0x01 then "1"
      else if key_code = 0x02 then "2"
      else if key_code = 0x03 then "3"
      else if key_code = 0x04 then "4"
      else if key_code = 0x05 then "5"
      else if key_code = 0x06 then "6"
      else if key_code = 0x07 then "7"
      else if key_code = 0x08 then "8"
      else if key_code = 0x09 then "9"
      else if key_code = 0x0A then "B"
      else if key_code = 0x0B then "A"
      else if key_code = 0x0C then "ENT"
      else if key_code = 0x0D then "ESC"
      else if key_code = 0x0E then "*"
      else if key_code = 0x0F then "#"
      else ""
    (label, tamper)

/-- The full member state of `HoneywellGalaxy7Keypad` (header lines 59-101),
plus `rx_sens` standing for whether an RX text sensor is configured
(`rx_sens_ != nullptr`). -/
structure KeypadState where
  display_line1_ : String
  display_line2_ : String
  input_buffer_ : String
  rx_sens : Bool
  last_init_poll_ : Nat
  last_activity_poll_ : Nat
  last_screen_push_ : Nat
  last_tx_time_ : Nat
  last_key_ts_ : Nat
  backlight_off_at_ : Nat
  awaiting_reply_ : Bool
  last_cmd_ : LastCmd
  sent_second_init_ : Bool
  needs_button_ack_ : Bool
  screen_dirty_ : Bool
  beep_set_ : Bool
  backlight_on_ : Bool
  backlight_cmd_pending_ : Bool
  backlight_target_on_ : Bool
  in_tamper_ : Bool
  last_key_name_ : String
  last_key_tamper_ : Bool
  backlight_timeout_ms_ : Nat
  ack_toggle_ : Nat
  device_id_ : Nat
  beep_mode_ : Nat
  beep_period_ : Nat
  beep_quiet_period_ : Nat
  screen_seq_flag_ : Nat
  need_reinit_after_f2_ : Bool
  key_ack_pending_ : Bool
  ack_pending_code_ : Nat
  rx_buf_ : List Nat
  last_panel_rx_ms_ : Nat
  panel_online_ : Bool
deriving Repr, DecidableEq

/-- Default member initializers from the header (with no sensor attached). -/
def initState : KeypadState where
  display_line1_ := "ESP-HOME"
  display_line2_ := "Initializing"
  input_buffer_ := ""
  rx_sens := false
  last_init_poll_ := 0
  last_activity_poll_ := 0
  last_screen_push_ := 0
  last_tx_time_ := 0
  last_key_ts_ := 0
  backlight_off_at_ := 0
  awaiting_reply_ := false
  last_cmd_ := CMD_NONE
  sent_second_init_ := false
  needs_button_ack_ := false
  screen_dirty_ := true
  beep_set_ := false
  backlight_on_ := false
  backlight_cmd_pending_ := false
  backlight_target_on_ := false
  in_tamper_ := false
  last_key_name_ := ""
  last_key_tamper_ := false
  backlight_timeout_ms_ := 15000
  ack_toggle_ := 0x02
  device_id_ := 0x20
  beep_mode_ := 0x00
  beep_period_ := 0x00
  beep_quiet_period_ := 0x00
  screen_seq_flag_ := 0x00
  need_reinit_after_f2_ := false
  key_ack_pending_ := false
  ack_pending_code_ := 0x00
  rx_buf_ := []
  last_panel_rx_ms_ := 0
  panel_online_ := false

/-- An emission to the RX text sensor: immediate `publish_state`, or the
one-shot `set_timeout` deferred publish. -/
inductive SinkEvent
  | publishNow (s : String)
  | publishAfter (delay_ms : Nat) (s : String)
deriving DecidableEq, Repr

/-- `bump_backlight_`: extend the off-deadline; queue a backlight-on command
only when the light is currently off. -/
def bump_backlight_ (st : KeypadState) (now : Nat) : KeypadState :=
  let st := { st with backlight_off_at_ := now + st.backlight_timeout_ms_ }
  if !st.backlight_on_ then
    { st with backlight_target_on_ := true, backlight_cmd_pending_ := true }
  else st

/-- `update_tamper_state_`: edge-triggered tamper update. -/
def update_tamper_state_ (st : KeypadState) (new_tamper : Bool) : KeypadState :=
  if new_tamper = st.in_tamper_ then st else { st with in_tamper_ := new_tamper }

/-- `handle_keypress_(key_name, tamper)`: ESC clears the buffer, ENT submits
the buffer to the RX sensor (and schedules a 200 ms deferred empty publish),
other printable keys are appended to the buffer.  Returns the new state and
the sink emissions. -/
def handle_keypress_ (st : KeypadState) (now : Nat) (key_name : String)
    (_tamper : Bool) : KeypadState × List SinkEvent :=
  let st := bump_backlight_ st now
  if key_name = "ESC" then
    let st :=
      if st.input_buffer_ ≠ "" then
        { st with input_buffer_ := "", screen_dirty_ := true }
      else st
    ({ st with screen_dirty_ := true }, [])
  else if key_name = "ENT" then
    if st.input_buffer_ ≠ "" then
      let code := st.input_buffer_
      let st := { st with input_buffer_ := "", screen_dirty_ := true }
      if st.rx_sens then
        (st, [SinkEvent.publishNow code, SinkEvent.publishAfter 200 ""])
      else (st, [])
    else ({ st with screen_dirty_ := true }, [])
  else if key_name.length = 1 ∧
      ((key_name.toList.headD ' ').isDigit ∨ key_name = "*" ∨ key_name = "#") then
    ({ st with input_buffer_ := st.input_buffer_ ++ key_name,
               screen_dirty_ := true }, [])
  else if key_name = "A" ∨ key_name = "B" then
    ({ st with input_buffer_ := st.input_buffer_ ++ key_name,
               screen_dirty_ := true }, [])
  else (st, [])

/-- `resize(16)` / `resize(16, ' ')`: truncate to 16 or pad with spaces. -/
def padTo16 (s : List Char) : List Char :=
  if s.length > 16 then s.take 16 else s ++ List.replicate (16 - s.length) ' '

/-- `build_screen_frame_`: assemble the `07` screen command, flipping the
sequence bit every call and consuming a pending button acknowledgement. -/
def build_screen_frame_ (st : KeypadState) : KeypadState × List Nat :=
  let modifier := 0x01
  let seq := if st.screen_seq_flag_ = 0x00 then 0x80 else 0x00
  let st := { st with screen_seq_flag_ := seq }
  let modifier := modifier ||| seq
  let (modifier, st) :=
    if st.needs_button_ack_ then
      (modifier ||| 0x10 ||| st.ack_toggle_,
       { st with ack_toggle_ := if st.ack_toggle_ = 0x00 then 0x02 else 0x00,
                 needs_button_ack_ := false })
    else (modifier, st)
  let line2 :=
    if st.input_buffer_ = "" then st.display_line2_.toList
    else List.replicate (min st.input_buffer_.length 16) '*'
  let line1 := padTo16 st.display_line1_.toList
  let line2 := padTo16 line2
  (st, st.device_id_ :: 0x07 :: modifier :: 0x17 ::
        (line1.map Char.toNat ++ 0x02 :: line2.map Char.toNat ++ [0x07]))

/-- Result of `handle_reply_for_cmd_`: the successor state, the invocations
of `handle_keypress_` (its arguments), and the sink emissions. -/
structure ReplyResult where
  state : KeypadState
  keypresses : List (String × Bool)
  sink : List SinkEvent
deriving Repr

/-- Source lines 456-465: any address-valid frame refreshes the last-receive
timestamp; a previously offline panel is marked online, re-arming the beep
command and a screen redraw. -/
def accept_frame_ (st : KeypadState) (now : Nat) : KeypadState :=
  let st := { st with last_panel_rx_ms_ := now }
  if !st.panel_online_ then
    { st with panel_online_ := true, beep_set_ := false, screen_dirty_ := true }
  else st

/-- Source lines 556-593: key/tamper event after an activity poll (guards for
tamper-only and undecodable codes already taken by the caller). -/
def handle_f4_activity_ (st : KeypadState) (now : Nat) (code : Nat)
    (key_name : String) (tamper : Bool) : ReplyResult :=
  let duplicate_time := key_name = st.last_key_name_ ∧
    tamper = st.last_key_tamper_ ∧
    u32sub now st.last_key_ts_ ≤ KEY_DEDUPE_WINDOW_MS
  let duplicate_ack := st.key_ack_pending_ ∧ code = st.ack_pending_code_
  let step :=
    if ¬duplicate_time ∧ ¬duplicate_ack then
      let st := { st with last_key_name_ := key_name,
                          last_key_tamper_ := tamper, last_key_ts_ := now }
      let hk := handle_keypress_ st now key_name tamper
      (hk.1, [(key_name, tamper)], hk.2)
    else (st, ([] : List (String × Bool)), ([] : List SinkEvent))
  ⟨{ step.1 with needs_button_ack_ := true, screen_dirty_ := true,
                 key_ack_pending_ := true, ack_pending_code_ := code },
    step.2.1, step.2.2⟩

/-- Source lines 505-610: the shared F4 handler, after the caller has
validated the checksum. -/
def handle_f4_ (st : KeypadState) (now : Nat) (code : Nat) : ReplyResult :=
  let decoded := decode_key_and_tamper_ code
  let key_name := decoded.1
  let tamper := decoded.2
  let tamper_only := key_name = "" ∧ tamper
  let st := update_tamper_state_ st tamper
  if st.last_cmd_ = CMD_SCREEN_07 then
    if code = 0x7F then
      ⟨{ st with key_ack_pending_ := false, ack_pending_code_ := 0x00 }, [], []⟩
    else ⟨st, [], []⟩
  else if st.last_cmd_ = CMD_ACTIVITY_19 then
    if tamper_only then ⟨st, [], []⟩
    else if key_name = "" ∧ ¬tamper then ⟨st, [], []⟩
    else handle_f4_activity_ st now code key_name tamper
  else ⟨st, [], []⟩

/-- `handle_reply_for_cmd_(bytes)`: context-sensitive reply interpretation
(source lines 451-611).  `now` stands for the `millis()` calls inside. -/
def handle_reply_for_cmd_ (st : KeypadState) (now : Nat) (bytes : List Nat) :
    ReplyResult :=
  if bytes.headD 0 ≠ KEYPAD_ADDR ∨ bytes = [] then ⟨st, [], []⟩
  else
    let st := accept_frame_ st now
    let type := if bytes.length ≥ 2 then bytes.getD 1 0 else 0x00
    if st.last_cmd_ = CMD_ACTIVITY_19 ∧ type = 0xFE ∧ bytes.length ≥ 3 ∧
        bytes.getD 2 0 = 0xBA then
      ⟨st, [], []⟩
    else if st.last_cmd_ = CMD_SCREEN_07 ∧ type = 0xF2 then
      ⟨{ st with need_reinit_after_f2_ := true, screen_dirty_ := true }, [], []⟩
    else if st.last_cmd_ = CMD_SCREEN_07 ∧ type = 0xFE ∧ bytes.length ≥ 3 ∧
        bytes.getD 2 0 = 0xBA then
      ⟨update_tamper_state_ st false, [], []⟩
    else if (st.last_cmd_ = CMD_BEEP_0C ∨ st.last_cmd_ = CMD_BACKLIGHT_0D) ∧
        type = 0xFE ∧ bytes.length ≥ 3 ∧ bytes.getD 2 0 = 0xBA then
      ⟨st, [], []⟩
    else if type = 0xF4 ∧ bytes.length = 4 then
      let code := bytes.getD 2 0
      let cs := bytes.getD 3 0
      if galaxy_checksum [KEYPAD_ADDR, 0xF4, code] ≠ cs then ⟨st, [], []⟩
      else handle_f4_ st now code
    else ⟨st, [], []⟩

/-- Result of the scheduler section of `loop` (lines 196-307): successor
state, transmitted payloads (checksum not yet appended, as passed to
`send_frame`), and whether the forced-re-init branch executed its early
`return` from `loop`. -/
structure SchedResult where
  state : KeypadState
  sent : List (List Nat)
  early : Bool
deriving Repr

/-- The priority cascade of `loop` (source lines 221-253) that picks the
command to send; the periodic-poll branch also resets the two toggles at
selection time (lines 236-237). -/
def select_cmd (st : KeypadState) (now : Nat) : KeypadState × LastCmd :=
  if ¬st.sent_second_init_ ∧
      u32sub now st.last_init_poll_ ≥ INIT_POLL_SECOND_MS then
    (st, CMD_POLL_00)
  else if st.sent_second_init_ ∧ st.screen_dirty_ then
    (st, CMD_SCREEN_07)
  else if u32sub now st.last_init_poll_ ≥ INIT_POLL_INTERVAL_MS then
    ({ st with ack_toggle_ := 0x02, screen_seq_flag_ := 0x00 }, CMD_POLL_00)
  else if st.sent_second_init_ ∧ ¬st.beep_set_ then
    (st, CMD_BEEP_0C)
  else if st.backlight_cmd_pending_ then
    (st, CMD_BACKLIGHT_0D)
  else if u32sub now st.last_activity_poll_ ≥ ACTIVITY_POLL_INTERVAL_MS then
    (st, CMD_ACTIVITY_19)
  else (st, CMD_NONE)

/-- The `switch (cmd_to_send)` of `loop` (source lines 255-300): per-command
state updates and the transmitted payload. -/
def dispatch_cmd (st : KeypadState) (now : Nat) :
    LastCmd → KeypadState × List (List Nat)
  | CMD_POLL_00 =>
      let st :=
        if ¬st.sent_second_init_ then { st with sent_second_init_ := true }
        else st
      ({ st with last_init_poll_ := now }, [[st.device_id_, 0x00, 0x0F]])
  | CMD_SCREEN_07 =>
      let built := build_screen_frame_ st
      let st := { built.1 with last_screen_push_ := now,
                               screen_dirty_ := false }
      (bump_backlight_ st now, [built.2])
  | CMD_ACTIVITY_19 =>
      ({ st with last_activity_poll_ := now },
        [[st.device_id_, 0x19, 0x01]])
  | CMD_BEEP_0C =>
      ({ st with beep_set_ := true },
        [[st.device_id_, 0x0C, st.beep_mode_, st.beep_period_,
          st.beep_quiet_period_]])
  | CMD_BACKLIGHT_0D =>
      let val := if st.backlight_target_on_ then 0x01 else 0x00
      ({ st with backlight_on_ := st.backlight_target_on_,
                 backlight_cmd_pending_ := false },
        [[st.device_id_, 0x0D, val]])
  | CMD_NONE => (st, [])

/-- The idle-tick transmit decision of `loop` (lines 196-307): at most one
command is chosen by a strict priority cascade and sent. -/
def scheduler (st : KeypadState) (now : Nat) : SchedResult :=
  if st.awaiting_reply_ then ⟨st, [], false⟩
  else if st.need_reinit_after_f2_ then
    ⟨{ st with last_cmd_ := CMD_POLL_00, awaiting_reply_ := true,
               last_tx_time_ := now, last_init_poll_ := now,
               ack_toggle_ := 0x02, screen_seq_flag_ := 0x00,
               need_reinit_after_f2_ := false, rx_buf_ := [],
               screen_dirty_ := true },
      [[st.device_id_, 0x00, 0x0F]], true⟩
  else
    let sel := select_cmd st now
    if sel.2 = CMD_NONE then ⟨sel.1, [], false⟩
    else
      let acted := dispatch_cmd sel.1 now sel.2
      ⟨{ acted.1 with last_cmd_ := sel.2, awaiting_reply_ := true,
                      last_tx_time_ := now, rx_buf_ := [] },
        acted.2, false⟩

/-- Result of one `loop` tick. -/
structure LoopResult where
  state : KeypadState
  sent : List (List Nat)
  keypresses : List (String × Bool)
  sink : List SinkEvent
deriving Repr

/-- One tick of `loop()`: offline-timeout check, scheduler decision, RX
drain of `incoming`, reply-window processing, backlight timeout. -/
def loop (st : KeypadState) (now : Nat) (incoming : List Nat) : LoopResult :=
  let st :=
    if st.panel_online_ ∧ u32sub now st.last_panel_rx_ms_ > PANEL_OFFLINE_TIMEOUT_MS
    then { st with panel_online_ := false }
    else st
  let sched := scheduler st now
  if sched.early then ⟨sched.state, sched.sent, [], []⟩
  else
    let st := sched.state
    let st := { st with rx_buf_ := st.rx_buf_ ++ incoming }
    let afterReply :=
      if st.awaiting_reply_ ∧ u32sub now st.last_tx_time_ ≥ REPLY_WAIT_MS then
        let r :=
          if st.rx_buf_ ≠ [] then handle_reply_for_cmd_ st now st.rx_buf_
          else ⟨st, [], []⟩
        ({ r.state with rx_buf_ := [], awaiting_reply_ := false },
          r.keypresses, r.sink)
      else (st, ([] : List (String × Bool)), ([] : List SinkEvent))
    let st := afterReply.1
    let st :=
      if st.backlight_on_ ∧ now ≥ st.backlight_off_at_ then
        let st := { st with backlight_target_on_ := false,
                            backlight_cmd_pending_ := true }
        if st.input_buffer_ ≠ "" then
          { st with input_buffer_ := "", screen_dirty_ := true }
        else st
      else st
    ⟨st, sched.sent, afterReply.2.1, afterReply.2.2⟩

/-- Spec-side restatement of the checksum (refinement target): the claim's
"32-bit accumulator 0xAA plus the sum of all payload bytes, folded into one
byte by adding the accumulator's four constituent bytes modulo 256".  Payload
bytes are taken as already byte-sized here; `galaxy_checksum` reduces each
modulo 256 as the `uint8_t` element type does. -/
def checksum_spec (data : List Nat) : Nat :=
  let acc := (0xAA + data.sum) % 2 ^ 32
  (((acc >>> 24) &&& 0xFF) + ((acc >>> 16) &&& 0xFF) +
    ((acc >>> 8) &&& 0xFF) + (acc &&& 0xFF)) % 256

/-- The possible outcomes of one idle scheduler tick, named after the claim's
priority list. -/
inductive SchedAction
  | reinit
  | secondInit
  | screenUpdate
  | periodicPoll
  | beepConfig
  | backlightCmd
  | activityPoll
  | idle
deriving DecidableEq, Repr

/-- Spec-side priority cascade (refinement target for the scheduler): forced
re-init after F2, then second init poll after the 5 s primary delay, then
screen update when second init is done and the screen is dirty, then periodic
init poll at 5 s, then beep config, then pending backlight command, then
activity poll at 150 ms. -/
def spec_priority (st : KeypadState) (now : Nat) : SchedAction :=
  if st.need_reinit_after_f2_ then .reinit
  else if ¬st.sent_second_init_ ∧
      u32sub now st.last_init_poll_ ≥ INIT_POLL_SECOND_MS then .secondInit
  else if st.sent_second_init_ ∧ st.screen_dirty_ then .screenUpdate
  else if u32sub now st.last_init_poll_ ≥ INIT_POLL_INTERVAL_MS then .periodicPoll
  else if st.sent_second_init_ ∧ ¬st.beep_set_ then .beepConfig
  else if st.backlight_cmd_pending_ then .backlightCmd
  else if u32sub now st.last_activity_poll_ ≥ ACTIVITY_POLL_INTERVAL_MS then
    .activityPoll
  else .idle

/-- State after `n` consecutive `build_screen_frame_` calls. -/
def screen_frame_iter (st : KeypadState) : Nat → KeypadState
  | 0 => st
  | n + 1 => (build_screen_frame_ (screen_frame_iter st n)).1

/-- The frame returned by the `(n+1)`-th consecutive `build_screen_frame_`
call. -/
def screen_frame_at (st : KeypadState) (n : Nat) : List Nat :=
  (build_screen_frame_ (screen_frame_iter st n)).2

/-- The ack-toggle field only ever holds `0x00` or `0x02` in the driver
(initialised to `0x02`, flipped between the two, reset to `0x02`). -/
def AckInv (st : KeypadState) : Prop :=
  st.ack_toggle_ = 0x00 ∨ st.ack_toggle_ = 0x02

/-! ## Helper lemmas -/

theorem update_tamper_fields (st : KeypadState) (b : Bool) :
    (update_tamper_state_ st b).last_cmd_ = st.last_cmd_ ∧
    (update_tamper_state_ st b).last_key_name_ = st.last_key_name_ ∧
    (update_tamper_state_ st b).last_key_tamper_ = st.last_key_tamper_ ∧
    (update_tamper_state_ st b).last_key_ts_ = st.last_key_ts_ ∧
    (update_tamper_state_ st b).key_ack_pending_ = st.key_ack_pending_ ∧
    (update_tamper_state_ st b).ack_pending_code_ = st.ack_pending_code_ ∧
    (update_tamper_state_ st b).input_buffer_ = st.input_buffer_ ∧
    (update_tamper_state_ st b).needs_button_ack_ = st.needs_button_ack_ ∧
    (update_tamper_state_ st b).panel_online_ = st.panel_online_ ∧
    (update_tamper_state_ st b).last_panel_rx_ms_ = st.last_panel_rx_ms_ ∧
    (update_tamper_state_ st b).screen_dirty_ = st.screen_dirty_ ∧
    (update_tamper_state_ st b).rx_sens = st.rx_sens := by
  unfold update_tamper_state_; split <;> simp

theorem accept_frame_fields (st : KeypadState) (now : Nat) :
    (accept_frame_ st now).last_cmd_ = st.last_cmd_ ∧
    (accept_frame_ st now).last_key_name_ = st.last_key_name_ ∧
    (accept_frame_ st now).last_key_tamper_ = st.last_key_tamper_ ∧
    (accept_frame_ st now).last_key_ts_ = st.last_key_ts_ ∧
    (accept_frame_ st now).key_ack_pending_ = st.key_ack_pending_ ∧
    (accept_frame_ st now).ack_pending_code_ = st.ack_pending_code_ ∧
    (accept_frame_ st now).needs_button_ack_ = st.needs_button_ack_ ∧
    (accept_frame_ st now).in_tamper_ = st.in_tamper_ ∧
    (accept_frame_ st now).input_buffer_ = st.input_buffer_ ∧
    (accept_frame_ st now).rx_sens = st.rx_sens ∧
    (accept_frame_ st now).device_id_ = st.device_id_ ∧
    (accept_frame_ st now).last_panel_rx_ms_ = now ∧
    (accept_frame_ st now).panel_online_ = true := by
  simp only [accept_frame_]; split_ifs <;> simp_all

theorem bump_backlight_fields (st : KeypadState) (now : Nat) :
    (bump_backlight_ st now).last_cmd_ = st.last_cmd_ ∧
    (bump_backlight_ st now).last_key_name_ = st.last_key_name_ ∧
    (bump_backlight_ st now).last_key_tamper_ = st.last_key_tamper_ ∧
    (bump_backlight_ st now).last_key_ts_ = st.last_key_ts_ ∧
    (bump_backlight_ st now).key_ack_pending_ = st.key_ack_pending_ ∧
    (bump_backlight_ st now).ack_pending_code_ = st.ack_pending_code_ ∧
    (bump_backlight_ st now).needs_button_ack_ = st.needs_button_ack_ ∧
    (bump_backlight_ st now).panel_online_ = st.panel_online_ ∧
    (bump_backlight_ st now).in_tamper_ = st.in_tamper_ ∧
    (bump_backlight_ st now).input_buffer_ = st.input_buffer_ ∧
    (bump_backlight_ st now).rx_sens = st.rx_sens ∧
    (bump_backlight_ st now).screen_dirty_ = st.screen_dirty_ := by
  simp only [bump_backlight_]; split_ifs <;> simp

theorem handle_keypress_fields (st : KeypadState) (now : Nat) (k : String)
    (t : Bool) :
    (handle_keypress_ st now k t).1.last_cmd_ = st.last_cmd_ ∧
    (handle_keypress_ st now k t).1.last_key_name_ = st.last_key_name_ ∧
    (handle_keypress_ st now k t).1.last_key_tamper_ = st.last_key_tamper_ ∧
    (handle_keypress_ st now k t).1.last_key_ts_ = st.last_key_ts_ ∧
    (handle_keypress_ st now k t).1.key_ack_pending_ = st.key_ack_pending_ ∧
    (handle_keypress_ st now k t).1.ack_pending_code_ = st.ack_pending_code_ ∧
    (handle_keypress_ st now k t).1.needs_button_ack_ = st.needs_button_ack_ ∧
    (handle_keypress_ st now k t).1.panel_online_ = st.panel_online_ ∧
    (handle_keypress_ st now k t).1.in_tamper_ = st.in_tamper_ := by
  obtain ⟨h1, h2, h3, h4, h5, h6, h7, h8, h9, h10, h11, h12⟩ :=
    bump_backlight_fields st now
  unfold handle_keypress_
  split_ifs <;> simp_all [apply_ite]

/-- Dispatch of a four-byte F4 frame: checksum gate, then the F4 handler. -/
theorem reply_f4_shape (st : KeypadState) (now c s : Nat) :
    handle_reply_for_cmd_ st now [KEYPAD_ADDR, 0xF4, c, s] =
      if galaxy_checksum [KEYPAD_ADDR, 0xF4, c] ≠ s then
        ⟨accept_frame_ st now, [], []⟩
      else handle_f4_ (accept_frame_ st now) now c := by
  simp [handle_reply_for_cmd_, KEYPAD_ADDR]

/-- An F4-typed frame whose total length is not 4 falls through every branch
of the reply interpreter. -/
theorem reply_f4_badlen (st : KeypadState) (now : Nat) (rest2 : List Nat)
    (h : rest2.length ≠ 2) :
    handle_reply_for_cmd_ st now (KEYPAD_ADDR :: 0xF4 :: rest2) =
      ⟨accept_frame_ st now, [], []⟩ := by
  simp only [handle_reply_for_cmd_]
  rw [if_neg (by simp [KEYPAD_ADDR])]
  have hlen : ¬(KEYPAD_ADDR :: 0xF4 :: rest2).length = 4 := by
    simp [Nat.add_eq_right]
    omega
  simp [hlen]
  intro h2 h3
  exact absurd h2 h

/-- Dispatch of the two-byte F2 rejection frame. -/
theorem reply_f2_shape (st : KeypadState) (now : Nat) :
    handle_reply_for_cmd_ st now [KEYPAD_ADDR, 0xF2] =
      if (accept_frame_ st now).last_cmd_ = CMD_SCREEN_07 then
        ⟨{ accept_frame_ st now with need_reinit_after_f2_ := true,
                                     screen_dirty_ := true }, [], []⟩
      else ⟨accept_frame_ st now, [], []⟩ := by
  simp [handle_reply_for_cmd_, KEYPAD_ADDR]

/-- The forced-re-init branch of the scheduler (source lines 200-219). -/
theorem scheduler_reinit (st : KeypadState) (now : Nat)
    (h1 : st.awaiting_reply_ = false) (h2 : st.need_reinit_after_f2_ = true) :
    scheduler st now =
      ⟨{ st with last_cmd_ := CMD_POLL_00, awaiting_reply_ := true,
                 last_tx_time_ := now, last_init_poll_ := now,
                 ack_toggle_ := 0x02, screen_seq_flag_ := 0x00,
                 need_reinit_after_f2_ := false, rx_buf_ := [],
                 screen_dirty_ := true },
        [[st.device_id_, 0x00, 0x0F]], true⟩ := by
  simp only [scheduler, h1, h2]
  simp

/-! ## C7: the checksum -/

theorem foldl_u32_mod (l : List Nat) :
    ∀ a : Nat, a < 2 ^ 32 →
      l.foldl (fun acc b => (acc + b % 256) % 2 ^ 32) a =
        (a + (l.map (fun b => b % 256)).sum) % 2 ^ 32 := by
  induction l with
  | nil =>
      intro a ha
      simp only [List.foldl_nil, List.map_nil, List.sum_nil, Nat.add_zero]
      omega
  | cons b l ih =>
      intro a ha
      simp only [List.foldl_cons, List.map_cons, List.sum_cons]
      rw [ih _ (Nat.mod_lt _ (by norm_num))]
      omega

/-- C7: `galaxy_checksum` is a pure function of its payload, equal to the
spec's formula (seed `0xAA`, add all bytes in a 32-bit accumulator, fold the
four accumulator bytes modulo 256), and maps `[0x20, 0x00, 0x0E]` to
`0xD8`. -/
theorem c7_checksum_pure :
    (∀ data : List Nat, (∀ b ∈ data, b < 256) →
      galaxy_checksum data = checksum_spec data) ∧
    galaxy_checksum [0x20, 0x00, 0x0E] = 0xD8 := by
  constructor
  · intro data h
    unfold galaxy_checksum checksum_spec
    rw [foldl_u32_mod data 0xAA (by norm_num)]
    have hmap : (data.map fun b => b % 256) = data := by
      conv_rhs => rw [← List.map_id data]
      exact List.map_congr_left fun a ha => Nat.mod_eq_of_lt (h a ha)
    rw [hmap]
  · decide

theorem c7_checksum_pure_witness :
    (∀ b ∈ [0x11, 0xF4, 0x01], b < 256) ∧
    galaxy_checksum [0x11, 0xF4, 0x01] = checksum_spec [0x11, 0xF4, 0x01] :=
  ⟨by decide, c7_checksum_pure.1 [0x11, 0xF4, 0x01] (by decide)⟩

/-! ## C10: the key decoder -/

set_option maxRecDepth 4096 in
/-- C10: for every byte other than `0x7F` the decoder returns a non-empty
label, so (empty label, tamper) occurs exactly at `0x7F` and (empty label,
no tamper) is impossible. -/
theorem c10_decode_total :
    ∀ code : Nat, code < 256 →
      (((decode_key_and_tamper_ code).1 = "" ∧
          (decode_key_and_tamper_ code).2 = true) ↔ code = 0x7F) ∧
      ¬((decode_key_and_tamper_ code).1 = "" ∧
          (decode_key_and_tamper_ code).2 = false) := by
  decide

theorem c10_decode_total_witness :
    (0x41 : Nat) < 256 ∧
    ((((decode_key_and_tamper_ 0x41).1 = "" ∧
        (decode_key_and_tamper_ 0x41).2 = true) ↔ (0x41 : Nat) = 0x7F) ∧
      ¬((decode_key_and_tamper_ 0x41).1 = "" ∧
        (decode_key_and_tamper_ 0x41).2 = false)) :=
  ⟨by decide, c10_decode_total 0x41 (by decide)⟩

/-! ## C8: replies with a wrong leading address byte -/

/-- C8: a reply whose first byte is not the peripheral address `0x11` leaves
the whole state unchanged and produces no effects. -/
theorem c8_wrong_address_no_mutation :
    ∀ (st : KeypadState) (now b0 : Nat) (rest : List Nat), b0 ≠ KEYPAD_ADDR →
      handle_reply_for_cmd_ st now (b0 :: rest) = ⟨st, [], []⟩ := by
  intro st now b0 rest h
  unfold handle_reply_for_cmd_
  rw [if_pos (Or.inl (by simpa using h))]

theorem c8_wrong_address_no_mutation_witness :
    (0x22 : Nat) ≠ KEYPAD_ADDR ∧
    handle_reply_for_cmd_ initState 5 [0x22, 0xF4] = ⟨initState, [], []⟩ :=
  ⟨by decide, c8_wrong_address_no_mutation initState 5 0x22 [0xF4] (by decide)⟩

/-! ## C9: ENT semantics of `handle_keypress_` -/

/-- C9: an accepted ENT with a non-empty buffer (and a configured sink)
publishes the buffered string, clears the buffer, marks the screen dirty and
schedules a 200 ms deferred publish of the empty string; with an empty buffer
it publishes nothing but still marks the screen dirty. -/
theorem c9_ent_semantics :
    ∀ (st : KeypadState) (now : Nat) (tamper : Bool),
      (st.input_buffer_ ≠ "" → st.rx_sens = true →
        (handle_keypress_ st now "ENT" tamper).2 =
          [SinkEvent.publishNow st.input_buffer_,
            SinkEvent.publishAfter 200 ""] ∧
        (handle_keypress_ st now "ENT" tamper).1.input_buffer_ = "" ∧
        (handle_keypress_ st now "ENT" tamper).1.screen_dirty_ = true) ∧
      (st.input_buffer_ = "" →
        (handle_keypress_ st now "ENT" tamper).2 = [] ∧
        (handle_keypress_ st now "ENT" tamper).1.screen_dirty_ = true) := by
  intro st now tamper
  obtain ⟨h1, h2, h3, h4, h5, h6, h7, h8, h9, h10, h11, h12⟩ :=
    bump_backlight_fields st now
  unfold handle_keypress_
  constructor
  · intro hne hsens
    split_ifs <;> simp_all [apply_ite]
  · intro hemp
    split_ifs <;> simp_all [apply_ite]

theorem c9_ent_semantics_witness :
    ("1234" : String) ≠ "" ∧
    (handle_keypress_
        { initState with input_buffer_ := "1234", rx_sens := true }
        50 "ENT" false).2 =
      [SinkEvent.publishNow "1234", SinkEvent.publishAfter 200 ""] ∧
    (handle_keypress_
        { initState with input_buffer_ := "1234", rx_sens := true }
        50 "ENT" false).1.input_buffer_ = "" := by
  have h := (c9_ent_semantics
      { initState with input_buffer_ := "1234", rx_sens := true }
      50 false).1 (by decide) (by decide)
  exact ⟨by decide, h.1, h.2.1⟩

/-! ## C4: screen frame sequence and ack toggles -/

theorem build_screen_state (st : KeypadState) :
    (build_screen_frame_ st).1.screen_seq_flag_ =
      (if st.screen_seq_flag_ = 0x00 then 0x80 else 0x00) ∧
    (build_screen_frame_ st).1.ack_toggle_ =
      (if st.needs_button_ack_ then
        (if st.ack_toggle_ = 0x00 then 0x02 else 0x00)
      else st.ack_toggle_) ∧
    (build_screen_frame_ st).1.needs_button_ack_ = false := by
  simp only [build_screen_frame_]
  split_ifs <;> simp_all

theorem build_screen_modifier_bit7 (st : KeypadState) (h : AckInv st) :
    (build_screen_frame_ st).2.getD 2 0 &&& 0x80 =
      (build_screen_frame_ st).1.screen_seq_flag_ := by
  rcases h with h | h <;>
    · simp only [build_screen_frame_, h]
      split_ifs <;> simp_all <;> decide

theorem build_screen_ackinv (st : KeypadState) (h : AckInv st) :
    AckInv (build_screen_frame_ st).1 := by
  rcases build_screen_state st with ⟨-, hack, -⟩
  unfold AckInv at h ⊢
  rw [hack]
  rcases h with h | h <;> split_ifs <;> simp_all

theorem screen_iter_ackinv (st : KeypadState) (h : AckInv st) :
    ∀ n, AckInv (screen_frame_iter st n) := by
  intro n
  induction n with
  | zero => exact h
  | succ n ih => exact build_screen_ackinv _ ih

theorem build_screen_seq_mem (st : KeypadState) :
    (build_screen_frame_ st).1.screen_seq_flag_ = 0x00 ∨
      (build_screen_frame_ st).1.screen_seq_flag_ = 0x80 := by
  rcases build_screen_state st with ⟨hseq, -, -⟩
  rw [hseq]; split_ifs <;> simp

/-- C4: over consecutive `build_screen_frame_` calls, bit7 of the modifier
byte (third byte of the frame) strictly alternates, starting from the prior
value of the sequence flag; the ack toggle changes exactly on calls that
consume a pending button acknowledgement, which is cleared by the call. -/
theorem c4_screen_toggles :
    ∀ st : KeypadState,
      AckInv st → (st.screen_seq_flag_ = 0x00 ∨ st.screen_seq_flag_ = 0x80) →
      ((screen_frame_at st 0).getD 2 0 &&& 0x80 ≠ st.screen_seq_flag_) ∧
      ∀ i : Nat,
        ((screen_frame_at st (i + 1)).getD 2 0 &&& 0x80 ≠
          (screen_frame_at st i).getD 2 0 &&& 0x80) ∧
        ((screen_frame_iter st (i + 1)).ack_toggle_ ≠
            (screen_frame_iter st i).ack_toggle_ ↔
          (screen_frame_iter st i).needs_button_ack_ = true) ∧
        (screen_frame_iter st (i + 1)).needs_button_ack_ = false := by
  intro st hack hseq
  have hinv := screen_iter_ackinv st hack
  constructor
  · rw [show screen_frame_at st 0 = (build_screen_frame_ st).2 from rfl,
        build_screen_modifier_bit7 st hack, (build_screen_state st).1]
    rcases hseq with h | h <;> rw [h] <;> split_ifs <;> simp_all
  · intro i
    have hit : ∀ n, screen_frame_iter st (n + 1) =
        (build_screen_frame_ (screen_frame_iter st n)).1 := fun n => rfl
    have hfr : ∀ n, screen_frame_at st n =
        (build_screen_frame_ (screen_frame_iter st n)).2 := fun n => rfl
    refine ⟨?_, ?_, ?_⟩
    · rw [hfr, hfr, build_screen_modifier_bit7 _ (hinv i),
          build_screen_modifier_bit7 _ (hinv (i + 1)),
          (build_screen_state (screen_frame_iter st (i + 1))).1, hit i]
      rcases build_screen_seq_mem (screen_frame_iter st i) with h | h <;>
        rw [h] <;> split_ifs <;> simp_all
    · rw [hit, (build_screen_state (screen_frame_iter st i)).2.1]
      rcases hinv i with h | h <;> rw [h] <;> split_ifs <;> simp_all
    · rw [hit]
      exact (build_screen_state (screen_frame_iter st i)).2.2

theorem c4_screen_toggles_witness :
    (AckInv initState ∧
      (initState.screen_seq_flag_ = 0x00 ∨ initState.screen_seq_flag_ = 0x80)) ∧
    (((screen_frame_at initState 0).getD 2 0 &&& 0x80 ≠
        initState.screen_seq_flag_) ∧
      ∀ i : Nat,
        ((screen_frame_at initState (i + 1)).getD 2 0 &&& 0x80 ≠
          (screen_frame_at initState i).getD 2 0 &&& 0x80) ∧
        ((screen_frame_iter initState (i + 1)).ack_toggle_ ≠
            (screen_frame_iter initState i).ack_toggle_ ↔
          (screen_frame_iter initState i).needs_button_ack_ = true) ∧
        (screen_frame_iter initState (i + 1)).needs_button_ack_ = false) :=
  ⟨⟨Or.inr rfl, Or.inl rfl⟩,
    c4_screen_toggles initState (Or.inr rfl) (Or.inl rfl)⟩

/-! ## C2: malformed F4 replies with a valid address byte -/

/-- C2 counterexample: a bad-checksum F4 reply whose first byte IS the
peripheral address does mutate state — the last-receive timestamp is
refreshed and the panel is marked online before validation, contradicting
the claim that both are unchanged. -/
theorem c2_counterexample :
    galaxy_checksum [KEYPAD_ADDR, 0xF4, 0x00] ≠ 0x00 ∧
    (handle_reply_for_cmd_ initState 1000
        [0x11, 0xF4, 0x00, 0x00]).state.last_panel_rx_ms_ ≠
      initState.last_panel_rx_ms_ ∧
    (handle_reply_for_cmd_ initState 1000
        [0x11, 0xF4, 0x00, 0x00]).state.panel_online_ ≠
      initState.panel_online_ := by
  decide

/-- C2 (amended): a malformed F4 reply carrying the valid peripheral address
(wrong total length, or bad trailing checksum) is discarded with tamper
state, input buffer and pending-ack bookkeeping unchanged and no effects
produced; however the last-receive timestamp is refreshed to `now` and the
panel is marked online, because those accept-frame updates happen before
validation. -/
theorem c2_amended_malformed_f4 :
    ∀ (st : KeypadState) (now : Nat) (bytes : List Nat),
      bytes.headD 0 = KEYPAD_ADDR → bytes ≠ [] → bytes.getD 1 0 = 0xF4 →
      (bytes.length ≠ 4 ∨
        bytes.getD 3 0 ≠ galaxy_checksum [KEYPAD_ADDR, 0xF4, bytes.getD 2 0]) →
      (handle_reply_for_cmd_ st now bytes).state.in_tamper_ = st.in_tamper_ ∧
      (handle_reply_for_cmd_ st now bytes).state.input_buffer_ =
        st.input_buffer_ ∧
      (handle_reply_for_cmd_ st now bytes).state.key_ack_pending_ =
        st.key_ack_pending_ ∧
      (handle_reply_for_cmd_ st now bytes).state.ack_pending_code_ =
        st.ack_pending_code_ ∧
      (handle_reply_for_cmd_ st now bytes).state.needs_button_ack_ =
        st.needs_button_ack_ ∧
      (handle_reply_for_cmd_ st now bytes).state.last_panel_rx_ms_ = now ∧
      (handle_reply_for_cmd_ st now bytes).state.panel_online_ = true ∧
      (handle_reply_for_cmd_ st now bytes).keypresses = [] ∧
      (handle_reply_for_cmd_ st now bytes).sink = [] := by
  intro st now bytes h0 hne h1 hmal
  obtain ⟨b0, rest, rfl⟩ : ∃ b0 rest, bytes = b0 :: rest := by
    cases bytes with
    | nil => exact absurd rfl hne
    | cons b0 rest => exact ⟨b0, rest, rfl⟩
  obtain ⟨b1, rest2, rfl⟩ : ∃ b1 rest2, rest = b1 :: rest2 := by
    cases rest with
    | nil => simp at h1
    | cons b1 rest2 => exact ⟨b1, rest2, rfl⟩
  simp only [List.headD_cons] at h0
  simp only [List.getD_cons_succ, List.getD_cons_zero] at h1
  subst h0 h1
  obtain ⟨f1, f2, f3, f4, f5, f6, f7, f8, f9, f10, f11, f12, f13⟩ :=
    accept_frame_fields st now
  by_cases hlen : rest2.length = 2
  · obtain ⟨c, s, rfl⟩ := List.length_eq_two.mp hlen
    rcases hmal with hmal | hmal
    · simp at hmal
    · simp only [List.getD_cons_succ, List.getD_cons_zero] at hmal
      rw [reply_f4_shape, if_pos (Ne.symm hmal)]
      simp_all
  · rw [reply_f4_badlen st now rest2 hlen]
    simp_all

theorem c2_amended_malformed_f4_witness :
    (([0x11, 0xF4, 0x00, 0x00] : List Nat).headD 0 = KEYPAD_ADDR ∧
      ([0x11, 0xF4, 0x00, 0x00] : List Nat) ≠ [] ∧
      ([0x11, 0xF4, 0x00, 0x00] : List Nat).getD 1 0 = 0xF4 ∧
      (([0x11, 0xF4, 0x00, 0x00] : List Nat).length ≠ 4 ∨
        ([0x11, 0xF4, 0x00, 0x00] : List Nat).getD 3 0 ≠
          galaxy_checksum [KEYPAD_ADDR, 0xF4,
            ([0x11, 0xF4, 0x00, 0x00] : List Nat).getD 2 0])) ∧
    (handle_reply_for_cmd_ initState 77
        [0x11, 0xF4, 0x00, 0x00]).state.key_ack_pending_ =
      initState.key_ack_pending_ ∧
    (handle_reply_for_cmd_ initState 77
        [0x11, 0xF4, 0x00, 0x00]).state.last_panel_rx_ms_ = 77 := by
  have h := c2_amended_malformed_f4 initState 77 [0x11, 0xF4, 0x00, 0x00]
    (by decide) (by decide) (by decide) (by decide)
  exact ⟨⟨by decide, by decide, by decide, by decide⟩, h.2.2.1, h.2.2.2.2.2.1⟩

/-! ## C5: F2 rejection while a screen update is outstanding -/

/-- C5: receiving `[addr, 0xF2]` while the last command was a screen update
sets forced-re-init and screen-dirty, leaves the owed-acknowledgement state
untouched, and the next idle scheduler tick takes the re-init branch first:
it sends `[addr, 0x00, 0x0F]`, resets the ack toggle to `0x02` and the
sequence flag to `0x00`, clears forced-re-init, sets screen-dirty, and skips
every other command including screen updates. -/
theorem c5_f2_forces_reinit :
    ∀ (st : KeypadState) (now now2 : Nat), st.last_cmd_ = CMD_SCREEN_07 →
      (handle_reply_for_cmd_ st now [0x11, 0xF2]).state.need_reinit_after_f2_ =
        true ∧
      (handle_reply_for_cmd_ st now [0x11, 0xF2]).state.screen_dirty_ = true ∧
      (handle_reply_for_cmd_ st now [0x11, 0xF2]).state.key_ack_pending_ =
        st.key_ack_pending_ ∧
      (handle_reply_for_cmd_ st now [0x11, 0xF2]).state.ack_pending_code_ =
        st.ack_pending_code_ ∧
      (scheduler
          { (handle_reply_for_cmd_ st now [0x11, 0xF2]).state with
            awaiting_reply_ := false, rx_buf_ := [] } now2).early = true ∧
      (scheduler
          { (handle_reply_for_cmd_ st now [0x11, 0xF2]).state with
            awaiting_reply_ := false, rx_buf_ := [] } now2).sent =
        [[st.device_id_, 0x00, 0x0F]] ∧
      (scheduler
          { (handle_reply_for_cmd_ st now [0x11, 0xF2]).state with
            awaiting_reply_ := false, rx_buf_ := [] } now2).state.ack_toggle_ =
        0x02 ∧
      (scheduler
          { (handle_reply_for_cmd_ st now [0x11, 0xF2]).state with
            awaiting_reply_ := false, rx_buf_ := [] } now2).state.screen_seq_flag_ =
        0x00 ∧
      (scheduler
          { (handle_reply_for_cmd_ st now [0x11, 0xF2]).state with
            awaiting_reply_ := false, rx_buf_ := [] } now2).state.need_reinit_after_f2_ =
        false ∧
      (scheduler
          { (handle_reply_for_cmd_ st now [0x11, 0xF2]).state with
            awaiting_reply_ := false, rx_buf_ := [] } now2).state.screen_dirty_ =
        true := by
  intro st now now2 hcmd
  obtain ⟨f1, f2, f3, f4, f5, f6, f7, f8, f9, f10, f11, f12, f13⟩ :=
    accept_frame_fields st now
  rw [show ([0x11, 0xF2] : List Nat) = [KEYPAD_ADDR, 0xF2] from rfl,
      reply_f2_shape, if_pos (by rw [f1, hcmd])]
  rw [scheduler_reinit _ now2 rfl rfl]
  simp_all

theorem c5_f2_forces_reinit_witness :
    ({ initState with last_cmd_ := CMD_SCREEN_07 } : KeypadState).last_cmd_ =
      CMD_SCREEN_07 ∧
    (handle_reply_for_cmd_ { initState with last_cmd_ := CMD_SCREEN_07 } 150
        [0x11, 0xF2]).state.need_reinit_after_f2_ = true ∧
    (scheduler
        { (handle_reply_for_cmd_ { initState with last_cmd_ := CMD_SCREEN_07 }
            150 [0x11, 0xF2]).state with
          awaiting_reply_ := false, rx_buf_ := [] } 260).sent =
      [[({ initState with last_cmd_ := CMD_SCREEN_07 } : KeypadState).device_id_,
        0x00, 0x0F]] := by
  have h := c5_f2_forces_reinit { initState with last_cmd_ := CMD_SCREEN_07 }
    150 260 rfl
  exact ⟨rfl, h.1, h.2.2.2.2.2.1⟩

/-! ## C3 / C6: activity-poll key events, debounce and ack-gating -/

/-- A checksum-valid F4 key event after an activity poll dispatches to the
activity-event handler (once tamper-only and undecodable codes are ruled
out). -/
theorem reply_activity_key (st : KeypadState) (now code : Nat) (name : String)
    (tamper : Bool) (hcmd : st.last_cmd_ = CMD_ACTIVITY_19)
    (hdec : decode_key_and_tamper_ code = (name, tamper)) (hname : name ≠ "") :
    handle_reply_for_cmd_ st now
        [KEYPAD_ADDR, 0xF4, code, galaxy_checksum [KEYPAD_ADDR, 0xF4, code]] =
      handle_f4_activity_ (update_tamper_state_ (accept_frame_ st now) tamper)
        now code name tamper := by
  rw [reply_f4_shape, if_neg (by simp)]
  obtain ⟨f1, -⟩ := accept_frame_fields st now
  obtain ⟨u1, -⟩ := update_tamper_fields (accept_frame_ st now) tamper
  simp [handle_f4_, hdec, hname, u1, f1, hcmd]

/-- A duplicate event (by time window or by pending acknowledgement) is
suppressed from `handle_keypress_` but still re-arms the acknowledgement
bookkeeping and marks the screen dirty. -/
theorem f4_activity_suppress (st : KeypadState) (now code : Nat)
    (name : String) (tamper : Bool)
    (h : (name = st.last_key_name_ ∧ tamper = st.last_key_tamper_ ∧
        u32sub now st.last_key_ts_ ≤ KEY_DEDUPE_WINDOW_MS) ∨
      (st.key_ack_pending_ = true ∧ code = st.ack_pending_code_)) :
    handle_f4_activity_ st now code name tamper =
      ⟨{ st with needs_button_ack_ := true, screen_dirty_ := true,
                 key_ack_pending_ := true, ack_pending_code_ := code },
        [], []⟩ := by
  simp only [handle_f4_activity_]
  rw [if_neg (by tauto)]

/-- A non-duplicate event invokes `handle_keypress_` once and records the
event in the dedupe and acknowledgement bookkeeping. -/
theorem f4_activity_fire (st : KeypadState) (now code : Nat) (name : String)
    (tamper : Bool)
    (hnd : ¬(name = st.last_key_name_ ∧ tamper = st.last_key_tamper_ ∧
        u32sub now st.last_key_ts_ ≤ KEY_DEDUPE_WINDOW_MS))
    (hna : ¬(st.key_ack_pending_ = true ∧ code = st.ack_pending_code_)) :
    (handle_f4_activity_ st now code name tamper).keypresses =
      [(name, tamper)] ∧
    (handle_f4_activity_ st now code name tamper).state.last_key_name_ =
      name ∧
    (handle_f4_activity_ st now code name tamper).state.last_key_tamper_ =
      tamper ∧
    (handle_f4_activity_ st now code name tamper).state.last_key_ts_ = now ∧
    (handle_f4_activity_ st now code name tamper).state.key_ack_pending_ =
      true ∧
    (handle_f4_activity_ st now code name tamper).state.ack_pending_code_ =
      code ∧
    (handle_f4_activity_ st now code name tamper).state.needs_button_ack_ =
      true ∧
    (handle_f4_activity_ st now code name tamper).state.screen_dirty_ = true ∧
    (handle_f4_activity_ st now code name tamper).state.last_cmd_ =
      st.last_cmd_ ∧
    (handle_f4_activity_ st now code name tamper).state.panel_online_ =
      st.panel_online_ := by
  obtain ⟨k1, k2, k3, k4, k5, k6, k7, k8, k9⟩ := handle_keypress_fields
    { st with last_key_name_ := name, last_key_tamper_ := tamper,
              last_key_ts_ := now } now name tamper
  simp only [handle_f4_activity_]
  rw [if_pos ⟨hnd, hna⟩]
  simp_all

/-- C6: while an acknowledgement is pending for the same raw code, a valid
non-tamper-only F4 key event after an activity poll is suppressed from
`handle_keypress_`, yet still sets `needs_button_ack_`, `screen_dirty_`,
`key_ack_pending_` and `ack_pending_code_`. -/
theorem c6_ack_gating :
    ∀ (st : KeypadState) (now code : Nat) (name : String) (tamper : Bool),
      st.last_cmd_ = CMD_ACTIVITY_19 →
      decode_key_and_tamper_ code = (name, tamper) → name ≠ "" →
      st.key_ack_pending_ = true → st.ack_pending_code_ = code →
      (handle_reply_for_cmd_ st now
          [KEYPAD_ADDR, 0xF4, code,
            galaxy_checksum [KEYPAD_ADDR, 0xF4, code]]).keypresses = [] ∧
      (handle_reply_for_cmd_ st now
          [KEYPAD_ADDR, 0xF4, code,
            galaxy_checksum [KEYPAD_ADDR, 0xF4, code]]).state.needs_button_ack_ =
        true ∧
      (handle_reply_for_cmd_ st now
          [KEYPAD_ADDR, 0xF4, code,
            galaxy_checksum [KEYPAD_ADDR, 0xF4, code]]).state.screen_dirty_ =
        true ∧
      (handle_reply_for_cmd_ st now
          [KEYPAD_ADDR, 0xF4, code,
            galaxy_checksum [KEYPAD_ADDR, 0xF4, code]]).state.key_ack_pending_ =
        true ∧
      (handle_reply_for_cmd_ st now
          [KEYPAD_ADDR, 0xF4, code,
            galaxy_checksum [KEYPAD_ADDR, 0xF4, code]]).state.ack_pending_code_ =
        code := by
  intro st now code name tamper hcmd hdec hname hkap hcode
  obtain ⟨f1, f2, f3, f4, f5, f6, -⟩ := accept_frame_fields st now
  obtain ⟨u1, u2, u3, u4, u5, u6, -⟩ :=
    update_tamper_fields (accept_frame_ st now) tamper
  rw [reply_activity_key st now code name tamper hcmd hdec hname,
      f4_activity_suppress _ now code name tamper
        (Or.inr ⟨by rw [u5, f5, hkap], by rw [u6, f6, hcode]⟩)]
  simp

theorem c6_ack_gating_witness :
    (({ initState with
        last_cmd_ := CMD_ACTIVITY_19, key_ack_pending_ := true,
        ack_pending_code_ := 1 } : KeypadState).last_cmd_ = CMD_ACTIVITY_19 ∧
      decode_key_and_tamper_ 1 = ("1", false) ∧ ("1" : String) ≠ "" ∧
      ({ initState with
        last_cmd_ := CMD_ACTIVITY_19, key_ack_pending_ := true,
        ack_pending_code_ := 1 } : KeypadState).key_ack_pending_ = true ∧
      ({ initState with
        last_cmd_ := CMD_ACTIVITY_19, key_ack_pending_ := true,
        ack_pending_code_ := 1 } : KeypadState).ack_pending_code_ = 1) ∧
    (handle_reply_for_cmd_
        { initState with
          last_cmd_ := CMD_ACTIVITY_19, key_ack_pending_ := true,
          ack_pending_code_ := 1 } 900
        [KEYPAD_ADDR, 0xF4, 1,
          galaxy_checksum [KEYPAD_ADDR, 0xF4, 1]]).keypresses = [] ∧
    (handle_reply_for_cmd_
        { initState with
          last_cmd_ := CMD_ACTIVITY_19, key_ack_pending_ := true,
          ack_pending_code_ := 1 } 900
        [KEYPAD_ADDR, 0xF4, 1,
          galaxy_checksum [KEYPAD_ADDR, 0xF4, 1]]).state.needs_button_ack_ =
      true := by
  have h := c6_ack_gating
    { initState with
      last_cmd_ := CMD_ACTIVITY_19, key_ack_pending_ := true,
      ack_pending_code_ := 1 } 900 1 "1" false rfl (by decide)
    (by decide) rfl rfl
  exact ⟨⟨rfl, by decide, by decide, rfl, rfl⟩, h.1, h.2.1⟩

/-- C3 counterexample: two identical valid key events spaced 4000 ms apart
(far beyond the 100 ms dedupe window): the first invokes `handle_keypress_`,
but the second does not, because the acknowledgement for that raw code is
still pending — refuting the claim that both events invoke it. -/
theorem c3_counterexample :
    galaxy_checksum [0x11, 0xF4, 0x01] = 0xB1 ∧
    u32sub 5000 1000 > KEY_DEDUPE_WINDOW_MS ∧
    (handle_reply_for_cmd_ { initState with last_cmd_ := CMD_ACTIVITY_19 } 1000
        [0x11, 0xF4, 0x01, 0xB1]).keypresses = [("1", false)] ∧
    (handle_reply_for_cmd_
        (handle_reply_for_cmd_ { initState with last_cmd_ := CMD_ACTIVITY_19 }
            1000 [0x11, 0xF4, 0x01, 0xB1]).state 5000
        [0x11, 0xF4, 0x01, 0xB1]).keypresses = [] := by
  decide

/-- C3 (amended): two valid key events after activity polls decoding to the
same (label, tamper) and raw code: the first (non-duplicate) event invokes
`handle_keypress_`; a second within the dedupe window is suppressed, so the
pair yields exactly one invocation; a second strictly beyond the window is
invoked again provided the pending acknowledgement for that code was cleared
in between — otherwise the ack-gate suppresses it (see the
counterexample). -/
theorem c3_amended_debounce :
    ∀ (st : KeypadState) (t1 t2 code : Nat) (name : String) (tamper : Bool),
      st.last_cmd_ = CMD_ACTIVITY_19 →
      decode_key_and_tamper_ code = (name, tamper) → name ≠ "" →
      ¬(name = st.last_key_name_ ∧ tamper = st.last_key_tamper_ ∧
          u32sub t1 st.last_key_ts_ ≤ KEY_DEDUPE_WINDOW_MS) →
      ¬(st.key_ack_pending_ = true ∧ code = st.ack_pending_code_) →
      (handle_reply_for_cmd_ st t1
          [KEYPAD_ADDR, 0xF4, code,
            galaxy_checksum [KEYPAD_ADDR, 0xF4, code]]).keypresses =
        [(name, tamper)] ∧
      (u32sub t2 t1 ≤ KEY_DEDUPE_WINDOW_MS →
        (handle_reply_for_cmd_
            (handle_reply_for_cmd_ st t1
                [KEYPAD_ADDR, 0xF4, code,
                  galaxy_checksum [KEYPAD_ADDR, 0xF4, code]]).state t2
            [KEYPAD_ADDR, 0xF4, code,
              galaxy_checksum [KEYPAD_ADDR, 0xF4, code]]).keypresses = []) ∧
      (u32sub t2 t1 > KEY_DEDUPE_WINDOW_MS →
        (handle_reply_for_cmd_
            { (handle_reply_for_cmd_ st t1
                [KEYPAD_ADDR, 0xF4, code,
                  galaxy_checksum [KEYPAD_ADDR, 0xF4, code]]).state with
              key_ack_pending_ := false } t2
            [KEYPAD_ADDR, 0xF4, code,
              galaxy_checksum [KEYPAD_ADDR, 0xF4, code]]).keypresses =
          [(name, tamper)]) := by
  intro st t1 t2 code name tamper hcmd hdec hname hnd hna
  obtain ⟨f1, f2, f3, f4, f5, f6, -⟩ := accept_frame_fields st t1
  obtain ⟨u1, u2, u3, u4, u5, u6, -⟩ :=
    update_tamper_fields (accept_frame_ st t1) tamper
  rw [reply_activity_key st t1 code name tamper hcmd hdec hname]
  have hndA : ¬(name =
      (update_tamper_state_ (accept_frame_ st t1) tamper).last_key_name_ ∧
      tamper =
        (update_tamper_state_ (accept_frame_ st t1) tamper).last_key_tamper_ ∧
      u32sub t1
          (update_tamper_state_ (accept_frame_ st t1) tamper).last_key_ts_ ≤
        KEY_DEDUPE_WINDOW_MS) := by
    rw [u2, f2, u3, f3, u4, f4]; exact hnd
  have hnaA : ¬((update_tamper_state_ (accept_frame_ st t1)
        tamper).key_ack_pending_ = true ∧
      code =
        (update_tamper_state_ (accept_frame_ st t1) tamper).ack_pending_code_) := by
    rw [u5, f5, u6, f6]; exact hna
  obtain ⟨p1, p2, p3, p4, p5, p6, p7, p8, p9, p10⟩ :=
    f4_activity_fire _ t1 code name tamper hndA hnaA
  set S1 := (handle_f4_activity_
    (update_tamper_state_ (accept_frame_ st t1) tamper)
    t1 code name tamper).state with hS1
  refine ⟨p1, ?_, ?_⟩
  · intro _
    obtain ⟨g1, g2, g3, g4, g5, g6, -⟩ := accept_frame_fields S1 t2
    obtain ⟨v1, v2, v3, v4, v5, v6, -⟩ :=
      update_tamper_fields (accept_frame_ S1 t2) tamper
    rw [reply_activity_key S1 t2 code name tamper
        (by rw [p9, u1, f1, hcmd]) hdec hname,
      f4_activity_suppress _ t2 code name tamper
        (Or.inr ⟨by rw [v5, g5, p5], by rw [v6, g6, p6]⟩)]
  · intro hw
    obtain ⟨g1, g2, g3, g4, g5, g6, -⟩ :=
      accept_frame_fields { S1 with key_ack_pending_ := false } t2
    obtain ⟨v1, v2, v3, v4, v5, v6, -⟩ := update_tamper_fields
      (accept_frame_ { S1 with key_ack_pending_ := false } t2) tamper
    rw [reply_activity_key { S1 with key_ack_pending_ := false } t2 code name
        tamper (by simp only []; rw [show ({ S1 with
          key_ack_pending_ := false } : KeypadState).last_cmd_ = S1.last_cmd_
          from rfl, p9, u1, f1, hcmd]) hdec hname]
    have hndC : ¬(name = (update_tamper_state_
        (accept_frame_ { S1 with key_ack_pending_ := false } t2)
        tamper).last_key_name_ ∧
        tamper = (update_tamper_state_
          (accept_frame_ { S1 with key_ack_pending_ := false } t2)
          tamper).last_key_tamper_ ∧
        u32sub t2 (update_tamper_state_
          (accept_frame_ { S1 with key_ack_pending_ := false } t2)
          tamper).last_key_ts_ ≤ KEY_DEDUPE_WINDOW_MS) := by
      rw [v4, g4, show ({ S1 with key_ack_pending_ := false } :
          KeypadState).last_key_ts_ = S1.last_key_ts_ from rfl, p4]
      intro hc
      exact absurd hw (not_lt.mpr hc.2.2)
    have hnaC : ¬((update_tamper_state_
        (accept_frame_ { S1 with key_ack_pending_ := false } t2)
        tamper).key_ack_pending_ = true ∧
        code = (update_tamper_state_
          (accept_frame_ { S1 with key_ack_pending_ := false } t2)
          tamper).ack_pending_code_) := by
      rw [v5, g5]
      simp
    exact (f4_activity_fire _ t2 code name tamper hndC hnaC).1

theorem c3_amended_debounce_witness :
    (({ initState with last_cmd_ := CMD_ACTIVITY_19 } :
        KeypadState).last_cmd_ = CMD_ACTIVITY_19 ∧
      decode_key_and_tamper_ 1 = ("1", false) ∧ ("1" : String) ≠ "" ∧
      ¬(("1" : String) = ({ initState with last_cmd_ := CMD_ACTIVITY_19 } :
          KeypadState).last_key_name_ ∧
        false = ({ initState with last_cmd_ := CMD_ACTIVITY_19 } :
          KeypadState).last_key_tamper_ ∧
        u32sub 1000 ({ initState with last_cmd_ := CMD_ACTIVITY_19 } :
          KeypadState).last_key_ts_ ≤ KEY_DEDUPE_WINDOW_MS) ∧
      ¬(({ initState with last_cmd_ := CMD_ACTIVITY_19 } :
          KeypadState).key_ack_pending_ = true ∧
        (1 : Nat) = ({ initState with last_cmd_ := CMD_ACTIVITY_19 } :
          KeypadState).ack_pending_code_) ∧
      u32sub 5000 1000 > KEY_DEDUPE_WINDOW_MS) ∧
    (handle_reply_for_cmd_ { initState with last_cmd_ := CMD_ACTIVITY_19 } 1000
        [KEYPAD_ADDR, 0xF4, 1,
          galaxy_checksum [KEYPAD_ADDR, 0xF4, 1]]).keypresses =
      [("1", false)] ∧
    (handle_reply_for_cmd_
        { (handle_reply_for_cmd_ { initState with last_cmd_ := CMD_ACTIVITY_19 }
            1000 [KEYPAD_ADDR, 0xF4, 1,
              galaxy_checksum [KEYPAD_ADDR, 0xF4, 1]]).state with
          key_ack_pending_ := false } 5000
        [KEYPAD_ADDR, 0xF4, 1,
          galaxy_checksum [KEYPAD_ADDR, 0xF4, 1]]).keypresses =
      [("1", false)] := by
  have h := c3_amended_debounce { initState with last_cmd_ := CMD_ACTIVITY_19 }
    1000 5000 1 "1" false rfl (by decide) (by decide) (by decide) (by decide)
  exact ⟨⟨rfl, by decide, by decide, by decide, by decide, by decide⟩,
    h.1, h.2.2 (by decide)⟩

/-! ## C1: the idle-tick scheduler -/

theorem scheduler_noreinit (st : KeypadState) (now : Nat)
    (h1 : st.awaiting_reply_ = false) (h2 : st.need_reinit_after_f2_ = false) :
    scheduler st now =
      (if (select_cmd st now).2 = CMD_NONE then
        ⟨(select_cmd st now).1, [], false⟩
      else
        ⟨{ (dispatch_cmd (select_cmd st now).1 now (select_cmd st now).2).1 with
             last_cmd_ := (select_cmd st now).2, awaiting_reply_ := true,
             last_tx_time_ := now, rx_buf_ := [] },
          (dispatch_cmd (select_cmd st now).1 now (select_cmd st now).2).2,
          false⟩) := by
  simp only [scheduler, h1, h2]
  simp

/-- C1: on an idle tick the scheduler sends at most one frame; a frame is
sent exactly when the spec's priority cascade (re-init, second init poll,
screen update, periodic init poll, beep config, backlight, activity poll)
selects an action; each action transmits its catalogued frame; and every
send sets awaiting-reply, records the transmit time and clears the receive
buffer. -/
theorem c1_scheduler_priority :
    ∀ (st : KeypadState) (now : Nat), st.awaiting_reply_ = false →
      (scheduler st now).sent.length ≤ 1 ∧
      (spec_priority st now = SchedAction.idle ↔ (scheduler st now).sent = []) ∧
      ((scheduler st now).sent ≠ [] →
        (scheduler st now).state.awaiting_reply_ = true ∧
        (scheduler st now).state.last_tx_time_ = now ∧
        (scheduler st now).state.rx_buf_ = []) ∧
      (spec_priority st now = SchedAction.reinit →
        (scheduler st now).sent = [[st.device_id_, 0x00, 0x0F]]) ∧
      (spec_priority st now = SchedAction.secondInit →
        (scheduler st now).sent = [[st.device_id_, 0x00, 0x0F]] ∧
        (scheduler st now).state.sent_second_init_ = true) ∧
      (spec_priority st now = SchedAction.screenUpdate →
        (scheduler st now).sent = [(build_screen_frame_ st).2]) ∧
      (spec_priority st now = SchedAction.periodicPoll →
        (scheduler st now).sent = [[st.device_id_, 0x00, 0x0F]]) ∧
      (spec_priority st now = SchedAction.beepConfig →
        (scheduler st now).sent = [[st.device_id_, 0x0C, st.beep_mode_,
          st.beep_period_, st.beep_quiet_period_]]) ∧
      (spec_priority st now = SchedAction.backlightCmd →
        (scheduler st now).sent =
          [[st.device_id_, 0x0D,
            if st.backlight_target_on_ then 0x01 else 0x00]]) ∧
      (spec_priority st now = SchedAction.activityPoll →
        (scheduler st now).sent = [[st.device_id_, 0x19, 0x01]]) := by
  intro st now h1
  by_cases hre : st.need_reinit_after_f2_ = true
  · rw [scheduler_reinit st now h1 hre]
    have hspec : spec_priority st now = SchedAction.reinit := by
      unfold spec_priority; rw [if_pos hre]
    rw [hspec]
    simp
  · have hre' : st.need_reinit_after_f2_ = false := by simpa using hre
    rw [scheduler_noreinit st now h1 hre']
    by_cases hA : ¬st.sent_second_init_ ∧
        u32sub now st.last_init_poll_ ≥ INIT_POLL_SECOND_MS
    · have hsel : select_cmd st now = (st, CMD_POLL_00) := by
        unfold select_cmd; rw [if_pos hA]
      have hspec : spec_priority st now = SchedAction.secondInit := by
        unfold spec_priority; rw [if_neg hre, if_pos hA]
      obtain ⟨hA1, hA2⟩ := hA
      rw [hsel, hspec]
      simp_all [dispatch_cmd]
    · by_cases hB : st.sent_second_init_ ∧ st.screen_dirty_
      · have hsel : select_cmd st now = (st, CMD_SCREEN_07) := by
          unfold select_cmd; rw [if_neg hA, if_pos hB]
        have hspec : spec_priority st now = SchedAction.screenUpdate := by
          unfold spec_priority; rw [if_neg hre, if_neg hA, if_pos hB]
        rw [hsel, hspec]
        simp [dispatch_cmd]
      · by_cases hC : u32sub now st.last_init_poll_ ≥ INIT_POLL_INTERVAL_MS
        · have hsel : select_cmd st now =
              ({ st with ack_toggle_ := 0x02, screen_seq_flag_ := 0x00 },
                CMD_POLL_00) := by
            unfold select_cmd; rw [if_neg hA, if_neg hB, if_pos hC]
          have hspec : spec_priority st now = SchedAction.periodicPoll := by
            unfold spec_priority
            rw [if_neg hre, if_neg hA, if_neg hB, if_pos hC]
          rw [hsel, hspec]
          simp [dispatch_cmd, apply_ite]
        · by_cases hD : st.sent_second_init_ ∧ ¬st.beep_set_
          · have hsel : select_cmd st now = (st, CMD_BEEP_0C) := by
              unfold select_cmd; rw [if_neg hA, if_neg hB, if_neg hC, if_pos hD]
            have hspec : spec_priority st now = SchedAction.beepConfig := by
              unfold spec_priority
              rw [if_neg hre, if_neg hA, if_neg hB, if_neg hC, if_pos hD]
            rw [hsel, hspec]
            simp [dispatch_cmd]
          · by_cases hE : st.backlight_cmd_pending_ = true
            · have hsel : select_cmd st now = (st, CMD_BACKLIGHT_0D) := by
                unfold select_cmd
                rw [if_neg hA, if_neg hB, if_neg hC, if_neg hD, if_pos hE]
              have hspec : spec_priority st now = SchedAction.backlightCmd := by
                unfold spec_priority
                rw [if_neg hre, if_neg hA, if_neg hB, if_neg hC, if_neg hD,
                    if_pos hE]
              rw [hsel, hspec]
              simp [dispatch_cmd]
            · by_cases hF : u32sub now st.last_activity_poll_ ≥
                  ACTIVITY_POLL_INTERVAL_MS
              · have hsel : select_cmd st now = (st, CMD_ACTIVITY_19) := by
                  unfold select_cmd
                  rw [if_neg hA, if_neg hB, if_neg hC, if_neg hD, if_neg hE,
                      if_pos hF]
                have hspec : spec_priority st now = SchedAction.activityPoll := by
                  unfold spec_priority
                  rw [if_neg hre, if_neg hA, if_neg hB, if_neg hC, if_neg hD,
                      if_neg hE, if_pos hF]
                rw [hsel, hspec]
                simp [dispatch_cmd]
              · have hsel : select_cmd st now = (st, CMD_NONE) := by
                  unfold select_cmd
                  rw [if_neg hA, if_neg hB, if_neg hC, if_neg hD, if_neg hE,
                      if_neg hF]
                have hspec : spec_priority st now = SchedAction.idle := by
                  unfold spec_priority
                  rw [if_neg hre, if_neg hA, if_neg hB, if_neg hC, if_neg hD,
                      if_neg hE, if_neg hF]
                rw [hsel, hspec]
                simp

theorem c1_scheduler_priority_witness :
    initState.awaiting_reply_ = false ∧
    (scheduler initState 0).sent.length ≤ 1 ∧
    (spec_priority initState 0 = SchedAction.idle ↔
      (scheduler initState 0).sent = []) :=
  ⟨rfl, (c1_scheduler_priority initState 0 rfl).1,
    (c1_scheduler_priority initState 0 rfl).2.1⟩

end HoneywellGalaxy7
